/-
Verification of the HollaEx MCP trading server (src/unnamed/part_001, the
full server; src/src/mcp-server.js is the two-tool variant of the same code).

The server registers a fixed catalog of tools on an MCP `McpServer`; the MCP
SDK validates each invocation's parameters against the tool's declared zod
input schema before running the handler, returns a tool-not-found error for
unknown tool names, and validates the handler's structured result against the
declared output schema.  Handlers construct a fresh exchange client from the
process-wide credentials (`makeClient`) and perform a single delegated call.

The embedding below models JSON values, the zod schemas exactly as declared in
the source, each tool's handler, and the dispatch pipeline.  The delegated
exchange client is abstract: a `Delegate` maps a recorded `DelegateCall` to a
response, and `invoke` returns the list of delegate calls that were made, so
"the delegate is never called" is the statement that this list is empty.
-/
import Mathlib

namespace HollaexMcp

/-- JSON-ish runtime values as seen by the JavaScript handlers.  `vundefined`
models JavaScript `undefined` (an absent parameter or argument). -/
inductive Value where
  | vundefined
  | vnull
  | vbool (b : Bool)
  | vnum (q : Rat)
  | vstr (s : String)
  | varr (elems : List Value)
  | vobj (fields : List (String × Value))

/-- Parameter mappings (the `params` object of an invocation request). -/
abbrev Params := List (String × Value)

/-- Property lookup on an object: a missing key reads as `undefined`,
as in JavaScript. -/
def pget (p : Params) (k : String) : Value :=
  match p.find? (fun kv => kv.1 == k) with
  | some kv => kv.2
  | none => .vundefined

/-- Property lookup on a `Value` (used for `order.id`). -/
def Value.objGet : Value → String → Value
  | .vobj kvs, k => pget kvs k
  | _, _ => .vundefined

/-- JavaScript truthiness, as used by `!price` and `if (meta)`. -/
def jsTruthy : Value → Bool
  | .vundefined => false
  | .vnull => false
  | .vbool b => b
  | .vnum q => !(q == 0)
  | .vstr s => !(s == "")
  | .varr _ => true
  | .vobj _ => true

/-- JavaScript strict equality against a string literal, as in
`type === 'limit'`. -/
def strEq (v : Value) (s : String) : Bool :=
  match v with
  | .vstr t => t == s
  | _ => false

/-- Rendering of a value inside a template literal (`Placed order ${order.id}`).
Integer numbers render exactly; non-integer rendering is a readable stand-in
for the JavaScript float formatting, which no claim exercises. -/
def jsDisplay : Value → String
  | .vundefined => "undefined"
  | .vnull => "null"
  | .vbool b => if b then "true" else "false"
  | .vnum q => if q.den == 1 then toString q.num else toString q
  | .vstr s => s
  | .varr _ => "[array]"
  | .vobj _ => "[object Object]"

mutual

/-- The zod schema combinators used by the source.  `znum pos isInt max`
is `z.number()` with optional `.positive()`, `.int()`, `.max(m)` refinements;
`zobj fields catchall` is `z.object({...})` where each field carries its type
and whether it is `.optional()`, and `catchall` is `some t` for
`.catchall(t)` / `z.record(z.string(), t)` and `none` otherwise (zod's
default "strip" mode and `.passthrough()` both accept unknown keys).
Object fields are a dedicated list type `ZFields` so that validation is
structurally recursive. -/
inductive ZType where
  | zstr
  | zbool
  | znum (pos : Bool) (isInt : Bool) (max : Option Rat)
  | zenum (vals : List String)
  | zany
  | znullable (t : ZType)
  | zunion (a b : ZType)
  | zarray (t : ZType) (nonempty : Bool)
  | zobj (fields : ZFields) (catchall : Option ZType)

inductive ZFields where
  | nil
  | cons (name : String) (t : ZType) (optional : Bool) (rest : ZFields)

end

def ZFields.ofList : List (String × ZType × Bool) → ZFields
  | [] => .nil
  | (k, t, opt) :: rest => .cons k t opt (ZFields.ofList rest)

/-- Does a field list declare the given key? -/
def hasField : ZFields → String → Bool
  | .nil, _ => false
  | .cons k _ _ rest, key => (k == key) || hasField rest key

mutual

/-- zod validation: does value `v` conform to schema `t`?  Present-but-
`undefined` object fields are treated as absent, as zod does. -/
def validate : ZType → Value → Bool
  | .zstr, v => match v with | .vstr _ => true | _ => false
  | .zbool, v => match v with | .vbool _ => true | _ => false
  | .znum pos isInt max, v =>
      match v with
      | .vnum q =>
          (!pos || decide (0 < q)) && (!isInt || (q.den == 1)) &&
          (match max with | some m => decide (q ≤ m) | none => true)
      | _ => false
  | .zenum vals, v => match v with | .vstr s => vals.contains s | _ => false
  | .zany, _ => true
  | .znullable t, v =>
      (match v with | .vnull => true | _ => false) || validate t v
  | .zunion a b, v => validate a v || validate b v
  | .zarray t ne, v =>
      match v with
      | .varr vs =>
          (!ne || !vs.isEmpty) && vs.all (fun w => validate t w)
      | _ => false
  | .zobj fields none, v =>
      match v with
      | .vobj kvs => fieldsOk fields kvs
      | _ => false
  | .zobj fields (some t), v =>
      match v with
      | .vobj kvs =>
          fieldsOk fields kvs &&
          kvs.all (fun kv => hasField fields kv.1 || validate t kv.2)
      | _ => false

/-- Validation of the declared fields of an object value. -/
def fieldsOk : ZFields → List (String × Value) → Bool
  | .nil, _ => true
  | .cons k t opt rest, kvs =>
      (match pget kvs k with
       | .vundefined => opt
       | w => validate t w) && fieldsOk rest kvs

end

/-! ### Process-wide configuration and credentials -/

/-- The environment configuration consumed by `makeClient`.  Only the
credential pair matters for the modelled behaviour; the URL and expiry
settings are passed to the external client and never inspected. -/
structure Config where
  apiKey : Option String
  apiSecret : Option String

/-- JavaScript truthiness of an environment string: `undefined` and the
empty string are falsy. -/
def envTruthy : Option String → Bool
  | some s => !(s == "")
  | none => false

/-- `!API_KEY || !API_SECRET` in `makeClient`. -/
def credsPresent (cfg : Config) : Bool :=
  envTruthy cfg.apiKey && envTruthy cfg.apiSecret

def missingCredentialsMsg : String :=
  "Missing HOLLAEX_API_KEY or HOLLAEX_API_SECRET environment variables."

def priceRequiredMsg : String := "price is required for limit orders"

/-! ### Errors and results -/

/-- Failure outcomes of one invocation.  `invalidInput` is produced by the
schema validation in the dispatch layer; `handlerError` is an `Error` thrown
inside a handler (the cross-field price check or `makeClient`); `upstream` is
a rejected delegated call; `invalidOutput` is the dispatch layer's generic
error for a handler result that fails the declared output schema. -/
inductive InvokeError where
  | invalidInput (msg : String)
  | handlerError (msg : String)
  | upstream (msg : String)
  | toolNotFound (name : String)
  | invalidOutput

/-- The spec's `InvalidInput` class: a schema violation, or the handler-level
cross-field validation error of `placeOrder`. -/
def InvokeError.isInvalidInput : InvokeError → Bool
  | .invalidInput _ => true
  | .handlerError m => m == priceRequiredMsg
  | _ => false

/-- The spec's `MissingCredentials` class: the error `makeClient` throws. -/
def InvokeError.isMissingCredentials : InvokeError → Bool
  | .handlerError m => m == missingCredentialsMsg
  | _ => false

/-- The spec's `ToolNotFound` class: a dispatch miss. -/
def InvokeError.isToolNotFound : InvokeError → Bool
  | .toolNotFound _ => true
  | _ => false

/-- A success envelope: the human-readable summary (the single text content
item) plus the structured payload. -/
structure InvocationResult where
  text : String
  structuredContent : Value

/-- `makeClient`: throws when either credential is falsy, otherwise yields a
client (abstract here; the delegated operations go through `Delegate`). -/
def makeClient (cfg : Config) : Except InvokeError Unit :=
  if !envTruthy cfg.apiKey || !envTruthy cfg.apiSecret then
    .error (.handlerError missingCredentialsMsg)
  else
    .ok ()

/-! ### The delegated exchange client -/

/-- One delegated call, recording the operation and the exact JavaScript
argument values passed by the handler. -/
inductive DelegateCall where
  | getBalance
  | createOrder (symbol side size type_ price opts : Value)
  | cancelOrder (orderId : Value)
  | getKit
  | getConstants
  | getTicker (symbol : Value)
  | getTickers
  | getOrderbook (symbol : Value)
  | getOrderbooks
  | getTrades (opts : Value)
  | getUser
  | getUserTrades (filters : Value)
  | getOrder (orderId : Value)
  | getOrders (filters : Value)
  | cancelAllOrders (symbol : Value)
  | getMiniCharts (assets : Value) (opts : Value)
  | getQuickTradeQuote (spending receiving amounts : Value)
  | executeOrder (token : Value)

/-- The external exchange client, abstracted as a response function: for each
call it either resolves with a payload or rejects with an error message. -/
abbrev Delegate := DelegateCall → Except String Value

/-- A handler outcome: the result (or error) together with the list of
delegated calls that were performed. -/
abbrev HandlerOut := Except InvokeError InvocationResult × List DelegateCall

abbrev Handler := Config → Delegate → Params → HandlerOut

/-- The `formatResponse` helper of the source. -/
def formatResponse (message : String) (structuredContent : Value) :
    InvocationResult :=
  ⟨message, structuredContent⟩

/-- The shape shared by every handler except `placeOrder`: construct the
client, perform one delegated call, shape the response. -/
def simpleHandler (mk : Params → DelegateCall) (msg : Params → String) :
    Handler := fun cfg d p =>
  match makeClient cfg with
  | .error e => (.error e, [])
  | .ok _ =>
      let c := mk p
      match d c with
      | .ok v => (.ok (formatResponse (msg p) v), [c])
      | .error m => (.error (.upstream m), [c])

def isUndefined : Value → Bool
  | .vundefined => true
  | _ => false

/-- The `opts` argument built by the `placeOrder` handler: `stop` is added
when not `undefined`, `meta` when truthy, and the whole object is replaced by
`undefined` when empty. -/
def placeOrderOptsArg (p : Params) : Value :=
  let fields :=
    (if isUndefined (pget p "stop") then [] else [("stop", pget p "stop")]) ++
    (if jsTruthy (pget p "meta") then [("meta", pget p "meta")] else [])
  if fields.isEmpty then .vundefined else .vobj fields

/-- The `placeOrder` handler: cross-field price check first, then the client
construction, then `createOrder(symbol, side, size, type, priceToSend, opts)`
where `priceToSend` is the given price for limit orders and the sentinel `0`
for market orders. -/
def placeOrderHandler : Handler := fun cfg d p =>
  if strEq (pget p "type") "limit" && !jsTruthy (pget p "price") then
    (.error (.handlerError priceRequiredMsg), [])
  else
    match makeClient cfg with
    | .error e => (.error e, [])
    | .ok _ =>
        let priceToSend :=
          if strEq (pget p "type") "limit" then pget p "price" else .vnum 0
        let c := DelegateCall.createOrder (pget p "symbol") (pget p "side")
          (pget p "size") (pget p "type") priceToSend (placeOrderOptsArg p)
        match d c with
        | .ok order =>
            (.ok (formatResponse ("Placed order " ++ jsDisplay
              (order.objGet "id")) order), [c])
        | .error m => (.error (.upstream m), [c])

/-! ### Declared schemas (transcribed from the `registerTool` calls) -/

def balanceOutputSchema : ZType :=
  .zobj (ZFields.ofList [("user_id", .znum false false none, true)])
    (some (.znum false false none))

def orderOutputSchema : ZType :=
  .zobj (ZFields.ofList
    [ ("id", .zstr, false)
    , ("symbol", .zstr, false)
    , ("side", .zstr, false)
    , ("size", .znum false false none, false)
    , ("type", .zstr, false)
    , ("price", .znum false false none, true)
    , ("status", .zstr, false)
    , ("filled", .znum false false none, false)
    , ("average", .znullable (.znum false false none), true)
    , ("fee", .znum false false none, true)
    , ("fee_coin", .zstr, true)
    , ("created_at", .zstr, false)
    , ("updated_at", .zstr, false)
    , ("fee_structure",
        .zobj (ZFields.ofList [("maker", .znum false false none, false),
               ("taker", .znum false false none, false)]) none, true)
    , ("stop", .znullable (.znum false false none), true)
    , ("meta", .zobj .nil (some .zany), true) ])
    none

def cancelOutputSchema : ZType :=
  .zobj (ZFields.ofList
    [ ("id", .zstr, true)
    , ("order_id", .zstr, true)
    , ("message", .zstr, true)
    , ("status", .zstr, true) ])
    none

def genericOutputSchema : ZType := .zany

/-- An input schema is the field list of the top-level `z.object`: name,
type, optional flag. -/
abbrev InputSchema := List (String × ZType × Bool)

def emptyInput : InputSchema := []

def placeOrderInput : InputSchema :=
  [ ("symbol", .zstr, false)
  , ("side", .zenum ["buy", "sell"], false)
  , ("size", .znum true false none, false)
  , ("type", .zenum ["limit", "market"], false)
  , ("price", .znum true false none, true)
  , ("stop", .znum true false none, true)
  , ("meta", .zobj (ZFields.ofList
      [("post_only", .zbool, true), ("note", .zstr, true)]) none, true) ]

def cancelOrderInput : InputSchema := [("orderId", .zstr, false)]

def symbolRequiredInput : InputSchema := [("symbol", .zstr, false)]

def symbolOptionalInput : InputSchema := [("symbol", .zstr, true)]

def getUserTradesInput : InputSchema :=
  [ ("symbol", .zstr, true)
  , ("limit", .znum true true (some 50), true)
  , ("page", .znum true true none, true)
  , ("orderBy", .zstr, true)
  , ("order", .zenum ["asc", "desc"], true)
  , ("startDate", .zstr, true)
  , ("endDate", .zstr, true)
  , ("format", .zenum ["all", "csv"], true) ]

def getOrderInput : InputSchema := [("orderId", .zstr, false)]

def getOrdersInput : InputSchema :=
  [ ("symbol", .zstr, true)
  , ("side", .zenum ["buy", "sell"], true)
  , ("status", .zstr, true)
  , ("open", .zbool, true)
  , ("limit", .znum true true (some 50), true)
  , ("page", .znum true true none, true)
  , ("orderBy", .zstr, true)
  , ("order", .zenum ["asc", "desc"], true)
  , ("startDate", .zstr, true)
  , ("endDate", .zstr, true) ]

def getMiniChartsInput : InputSchema :=
  [ ("assets", .zarray .zstr true, false)
  , ("from", .zstr, true)
  , ("to", .zstr, true)
  , ("quote", .zstr, true) ]

def getQuickTradeQuoteInput : InputSchema :=
  [ ("spending_currency", .zstr, false)
  , ("receiving_currency", .zstr, false)
  , ("spending_amount", .zunion .zstr (.znum false false none), true)
  , ("receiving_amount", .zunion .zstr (.znum false false none), true) ]

def executeOrderInput : InputSchema := [("token", .zstr, false)]

/-! ### The tool registry (`buildServer`) -/

/-- One registered tool: the metadata and schemas passed to `registerTool`
plus the handler closure. -/
structure ToolDef where
  name : String
  title : String
  description : String
  inputSchema : InputSchema
  outputSchema : ZType
  handler : Handler

def getUserBalanceTool : ToolDef :=
  { name := "getUserBalance"
  , title := "Get User Balance"
  , description := "Return the authenticated user balances from HollaEx."
  , inputSchema := emptyInput
  , outputSchema := balanceOutputSchema
  , handler := simpleHandler (fun _ => .getBalance)
      (fun _ => "Fetched user balances.") }

def getBalanceTool : ToolDef :=
  { name := "getBalance"
  , title := "Get User Balance"
  , description := "Return the authenticated user balances from HollaEx."
  , inputSchema := emptyInput
  , outputSchema := balanceOutputSchema
  , handler := simpleHandler (fun _ => .getBalance)
      (fun _ => "Fetched user balances.") }

def placeOrderTool : ToolDef :=
  { name := "placeOrder"
  , title := "Place Order"
  , description := "Place a user order on HollaEx. Set type to market (no price) or limit (requires price)."
  , inputSchema := placeOrderInput
  , outputSchema := orderOutputSchema
  , handler := placeOrderHandler }

def cancelOrderTool : ToolDef :=
  { name := "cancelOrder"
  , title := "Cancel Order"
  , description := "Cancel an existing order by order ID."
  , inputSchema := cancelOrderInput
  , outputSchema := cancelOutputSchema
  , handler := simpleHandler (fun p => .cancelOrder (pget p "orderId"))
      (fun p => "Canceled order " ++ jsDisplay (pget p "orderId")) }

def getKitTool : ToolDef :=
  { name := "getKit"
  , title := "Get Kit"
  , description := "Get exchange information (name, languages, description)."
  , inputSchema := emptyInput
  , outputSchema := genericOutputSchema
  , handler := simpleHandler (fun _ => .getKit)
      (fun _ => "Fetched kit information.") }

def getConstantsTool : ToolDef :=
  { name := "getConstants"
  , title := "Get Constants"
  , description := "Retrieve tick size, min/max price, min/max size of each symbol pair and coin."
  , inputSchema := emptyInput
  , outputSchema := genericOutputSchema
  , handler := simpleHandler (fun _ => .getConstants)
      (fun _ => "Fetched constants.") }

def getTickerTool : ToolDef :=
  { name := "getTicker"
  , title := "Get Ticker"
  , description := "Retrieve 24h ticker data for a specific symbol."
  , inputSchema := symbolRequiredInput
  , outputSchema := genericOutputSchema
  , handler := simpleHandler (fun p => .getTicker (pget p "symbol"))
      (fun p => "Fetched ticker for " ++ jsDisplay (pget p "symbol") ++ ".") }

def getTickersTool : ToolDef :=
  { name := "getTickers"
  , title := "Get Tickers"
  , description := "Retrieve 24h ticker data for all symbols."
  , inputSchema := emptyInput
  , outputSchema := genericOutputSchema
  , handler := simpleHandler (fun _ => .getTickers)
      (fun _ => "Fetched tickers for all symbols.") }

def getOrderbookTool : ToolDef :=
  { name := "getOrderbook"
  , title := "Get Orderbook"
  , description := "Retrieve orderbook for a symbol."
  , inputSchema := symbolRequiredInput
  , outputSchema := genericOutputSchema
  , handler := simpleHandler (fun p => .getOrderbook (pget p "symbol"))
      (fun p => "Fetched orderbook for " ++ jsDisplay (pget p "symbol") ++ ".") }

def getOrderbooksTool : ToolDef :=
  { name := "getOrderbooks"
  , title := "Get Orderbooks"
  , description := "Retrieve orderbooks for all symbols."
  , inputSchema := emptyInput
  , outputSchema := genericOutputSchema
  , handler := simpleHandler (fun _ => .getOrderbooks)
      (fun _ => "Fetched orderbooks.") }

def getTradesTool : ToolDef :=
  { name := "getTrades"
  , title := "Get Trades"
  , description := "Retrieve recent trades; optionally filter by symbol."
  , inputSchema := symbolOptionalInput
  , outputSchema := genericOutputSchema
  , handler := simpleHandler
      (fun p => .getTrades (.vobj [("symbol", pget p "symbol")]))
      (fun p => "Fetched recent trades" ++
        (if jsTruthy (pget p "symbol") then
          " for " ++ jsDisplay (pget p "symbol") else "") ++ ".") }

def getUserTool : ToolDef :=
  { name := "getUser"
  , title := "Get User"
  , description := "Retrieve the authenticated user's profile information."
  , inputSchema := emptyInput
  , outputSchema := genericOutputSchema
  , handler := simpleHandler (fun _ => .getUser)
      (fun _ => "Fetched user profile.") }

def getUserTradesTool : ToolDef :=
  { name := "getUserTrades"
  , title := "Get User Trades"
  , description := "Retrieve the user's trade history."
  , inputSchema := getUserTradesInput
  , outputSchema := genericOutputSchema
  , handler := simpleHandler (fun p => .getUserTrades (.vobj p))
      (fun _ => "Fetched user trades.") }

def getOrderTool : ToolDef :=
  { name := "getOrder"
  , title := "Get Order"
  , description := "Retrieve a specific order by ID."
  , inputSchema := getOrderInput
  , outputSchema := orderOutputSchema
  , handler := simpleHandler (fun p => .getOrder (pget p "orderId"))
      (fun p => "Fetched order " ++ jsDisplay (pget p "orderId") ++ ".") }

def getOrdersTool : ToolDef :=
  { name := "getOrders"
  , title := "Get Orders"
  , description := "Retrieve the list of user orders with optional filters (symbol, side, status)."
  , inputSchema := getOrdersInput
  , outputSchema := .zunion (.zarray orderOutputSchema false) genericOutputSchema
  , handler := simpleHandler (fun p => .getOrders (.vobj p))
      (fun _ => "Fetched orders.") }

def cancelAllOrdersTool : ToolDef :=
  { name := "cancelAllOrders"
  , title := "Cancel All Orders"
  , description := "Cancel all active orders for a specific trading pair symbol."
  , inputSchema := symbolRequiredInput
  , outputSchema := genericOutputSchema
  , handler := simpleHandler (fun p => .cancelAllOrders (pget p "symbol"))
      (fun p => "Canceled all orders for " ++ jsDisplay (pget p "symbol") ++ ".") }

def getMiniChartsTool : ToolDef :=
  { name := "getMiniCharts"
  , title := "Get Mini Charts"
  , description := "Get trade history HOLCV for provided assets."
  , inputSchema := getMiniChartsInput
  , outputSchema := genericOutputSchema
  , handler := simpleHandler
      (fun p => .getMiniCharts (pget p "assets")
        (.vobj [("from", pget p "from"), ("to", pget p "to"),
                ("quote", pget p "quote"), ("assets", pget p "assets")]))
      (fun _ => "Fetched mini charts.") }

def getQuickTradeQuoteTool : ToolDef :=
  { name := "getQuickTradeQuote"
  , title := "Get Quick Trade Quote"
  , description := "Get a quick trade quote between two currencies."
  , inputSchema := getQuickTradeQuoteInput
  , outputSchema := genericOutputSchema
  , handler := simpleHandler
      (fun p => .getQuickTradeQuote (pget p "spending_currency")
        (pget p "receiving_currency")
        (.vobj [("spending_amount", pget p "spending_amount"),
                ("receiving_amount", pget p "receiving_amount")]))
      (fun _ => "Fetched quick trade quote.") }

def executeOrderTool : ToolDef :=
  { name := "executeOrder"
  , title := "Execute Order"
  , description := "Execute a pre-created order using its token."
  , inputSchema := executeOrderInput
  , outputSchema := genericOutputSchema
  , handler := simpleHandler (fun p => .executeOrder (pget p "token"))
      (fun _ => "Executed order.") }

/-- The fixed tool catalog, in registration order. -/
def registry : List ToolDef :=
  [ getUserBalanceTool, getBalanceTool, placeOrderTool, cancelOrderTool
  , getKitTool, getConstantsTool, getTickerTool, getTickersTool
  , getOrderbookTool, getOrderbooksTool, getTradesTool, getUserTool
  , getUserTradesTool, getOrderTool, getOrdersTool, cancelAllOrdersTool
  , getMiniChartsTool, getQuickTradeQuoteTool, executeOrderTool ]

/-- Tool listing (the protocol's list-tools request): metadata only; needs no
credentials and no delegate. -/
def listTools : List (String × String) :=
  registry.map (fun t => (t.name, t.title))

/-! ### Dispatch (`invoke`) -/

/-- The schema violations of a parameter mapping: one description per field
that is required but absent, or present with a non-conforming value. -/
def violations (fields : InputSchema) (p : Params) : List String :=
  fields.filterMap (fun f =>
    let ok := match pget p f.1 with
      | .vundefined => f.2.2
      | w => validate f.2.1 w
    if ok then none else some ("Invalid or missing parameter: " ++ f.1))

/-- Does a parameter mapping satisfy an input schema?  Unknown keys are
allowed (zod strips them). -/
def inputValid (fields : InputSchema) (p : Params) : Bool :=
  (violations fields p).isEmpty

/-- zod's strip semantics: parsing drops the keys that are not declared in
the schema; the handler sees only the declared ones. -/
def stripParams (fields : InputSchema) (p : Params) : Params :=
  p.filter (fun kv => fields.any (fun f => f.1 == kv.1))

def findTool (name : String) : Option ToolDef :=
  registry.find? (fun t => t.name == name)

/-- The invocation pipeline of the MCP dispatch layer: resolve the tool name,
validate the parameters against the declared input schema, run the handler on
the parsed (stripped) parameters, and validate the structured result against
the declared output schema.  The second component is the list of delegated
exchange-client calls performed. -/
def invoke (cfg : Config) (d : Delegate) (name : String) (p : Params) :
    Except InvokeError InvocationResult × List DelegateCall :=
  match findTool name with
  | none => (.error (.toolNotFound name), [])
  | some t =>
      let viols := violations t.inputSchema p
      if viols.isEmpty then
        match t.handler cfg d (stripParams t.inputSchema p) with
        | (.ok r, calls) =>
            if validate t.outputSchema r.structuredContent then
              (.ok r, calls)
            else
              (.error .invalidOutput, calls)
        | (.error e, calls) => (.error e, calls)
      else
        (.error (.invalidInput (String.intercalate "; " viols)), [])

/-! ### HTTP app (`createHttpApp`) -/

def mcpPaths : List String := ["/mcp", "/api/mcp"]

def healthPaths : List String := ["/health", "/api/mcp/health"]

/-- A GET request routed by the Express app: the MCP paths answer a hint
payload, the liveness paths answer `{ok: true}`, anything else is unrouted.
The configuration argument records that no route consults the credentials. -/
def httpGet (_cfg : Config) (path : String) : Option (Nat × Value) :=
  if mcpPaths.contains path then
    some (200, .vobj [("ok", .vbool true),
                      ("message", .vstr "POST MCP requests here")])
  else if healthPaths.contains path then
    some (200, .vobj [("ok", .vbool true)])
  else
    none

/-! ### Concrete fixtures for the scenario claims -/

/-- The delegate stub payload of the spec's concrete `placeOrder` scenario. -/
def stubOrderValue : Value := .vobj
  [ ("id", .vstr "123"), ("symbol", .vstr "btc-usdt"), ("side", .vstr "buy")
  , ("size", .vnum 1), ("type", .vstr "limit"), ("price", .vnum 10000)
  , ("status", .vstr "new"), ("filled", .vnum 0)
  , ("created_at", .vstr "..."), ("updated_at", .vstr "...") ]

/-- The input of the spec's concrete `placeOrder` scenario. -/
def scenarioParams : Params :=
  [ ("symbol", .vstr "btc-usdt"), ("side", .vstr "buy"), ("size", .vnum 1)
  , ("type", .vstr "limit"), ("price", .vnum 10000) ]

/-! ### Helper lemmas -/

theorem makeClient_of_noCreds (cfg : Config) (hc : credsPresent cfg = false) :
    makeClient cfg = .error (.handlerError missingCredentialsMsg) := by
  unfold makeClient credsPresent at *
  rcases h1 : envTruthy cfg.apiKey <;> rcases h2 : envTruthy cfg.apiSecret <;>
    simp [h1, h2] at hc ⊢

theorem makeClient_of_creds (cfg : Config) (hc : credsPresent cfg = true) :
    makeClient cfg = .ok () := by
  unfold makeClient credsPresent at *
  rcases h1 : envTruthy cfg.apiKey <;> rcases h2 : envTruthy cfg.apiSecret <;>
    simp [h1, h2] at hc ⊢

theorem simpleHandler_of_noCreds (mk : Params → DelegateCall)
    (msg : Params → String) (cfg : Config) (d : Delegate) (p : Params)
    (hc : credsPresent cfg = false) :
    simpleHandler mk msg cfg d p =
      (.error (.handlerError missingCredentialsMsg), []) := by
  unfold simpleHandler
  rw [makeClient_of_noCreds cfg hc]

/-- Reading a schema-declared key through zod's strip is the same as reading
it from the raw parameter mapping. -/
theorem pget_stripParams (fields : InputSchema) (k : String) (p : Params)
    (h : fields.any (fun f => f.1 == k) = true) :
    pget (stripParams fields p) k = pget p k := by
  induction p with
  | nil => rfl
  | cons kv rest ih =>
      by_cases hk : (kv.1 == k) = true
      · have hk' : kv.1 = k := by simpa using hk
        have hkeep : fields.any (fun f => f.1 == kv.1) = true := by
          rw [hk']; exact h
        simp [stripParams, List.filter_cons, hkeep, pget, List.find?, hk]
      · by_cases hkeep : fields.any (fun f => f.1 == kv.1) = true
        · simpa [stripParams, List.filter_cons, hkeep, pget, List.find?, hk]
            using ih
        · simp only [Bool.not_eq_true] at hkeep
          simpa [stripParams, List.filter_cons, hkeep, pget, List.find?, hk]
            using ih


/-- `invoke` specialised to the `placeOrder` tool (definitional unfolding). -/
theorem invoke_placeOrder_eq (cfg : Config) (d : Delegate) (p : Params) :
    invoke cfg d "placeOrder" p =
      (if (violations placeOrderInput p).isEmpty then
        match placeOrderHandler cfg d (stripParams placeOrderInput p) with
        | (.ok r, calls) =>
            if validate orderOutputSchema r.structuredContent then
              (.ok r, calls)
            else (.error .invalidOutput, calls)
        | (.error e, calls) => (.error e, calls)
      else
        (.error (.invalidInput (String.intercalate "; "
          (violations placeOrderInput p))), [])) := rfl

/-- The `placeOrder` handler rejects a limit order without a price before
doing anything else. -/
theorem placeOrderHandler_limit_noPrice (cfg : Config) (d : Delegate)
    (pp : Params) (ht : pget pp "type" = .vstr "limit")
    (hp : pget pp "price" = .vundefined) :
    placeOrderHandler cfg d pp =
      (.error (.handlerError priceRequiredMsg), []) := by
  unfold placeOrderHandler
  rw [ht, hp]
  rfl


/-- With unusable credentials every catalog handler fails without a delegate
call: with the `MissingCredentials` error, or — for `placeOrder` only — with
the cross-field price error. -/
theorem handler_noCreds (t : ToolDef) (ht : t ∈ registry) (cfg : Config)
    (d : Delegate) (p : Params) (hc : credsPresent cfg = false) :
    t.handler cfg d p = (.error (.handlerError missingCredentialsMsg), []) ∨
    t.handler cfg d p = (.error (.handlerError priceRequiredMsg), []) := by
  have hmc := makeClient_of_noCreds cfg hc
  fin_cases ht <;>
    simp only [getUserBalanceTool, getBalanceTool, placeOrderTool,
      cancelOrderTool, getKitTool, getConstantsTool, getTickerTool,
      getTickersTool, getOrderbookTool, getOrderbooksTool, getTradesTool,
      getUserTool, getUserTradesTool, getOrderTool, getOrdersTool,
      cancelAllOrdersTool, getMiniChartsTool, getQuickTradeQuoteTool,
      executeOrderTool]
  all_goals try exact .inl (simpleHandler_of_noCreds _ _ cfg d p hc)
  by_cases hcond :
      (strEq (pget p "type") "limit" && !jsTruthy (pget p "price")) = true
  · refine .inr ?_
    show placeOrderHandler cfg d p = _
    unfold placeOrderHandler
    rw [if_pos hcond]
  · refine .inl ?_
    show placeOrderHandler cfg d p = _
    unfold placeOrderHandler
    rw [if_neg hcond, hmc]


/-- The schema violations of a lone `limit` parameter for `getOrders` reduce
to the conformance of the `limit` value. -/
theorem violations_getOrders_limit (q : Rat) :
    violations getOrdersInput [("limit", .vnum q)] =
      if validate (.znum true true (some 50)) (.vnum q) then []
      else ["Invalid or missing parameter: limit"] := by
  by_cases h : validate (.znum true true (some 50)) (.vnum q) = true
  · simp [violations, getOrdersInput, pget, h]
  · simp [violations, getOrdersInput, pget, h]

/-- The schema violations of a lone `limit` parameter for `getUserTrades`
reduce to the conformance of the `limit` value. -/
theorem violations_getUserTrades_limit (q : Rat) :
    violations getUserTradesInput [("limit", .vnum q)] =
      if validate (.znum true true (some 50)) (.vnum q) then []
      else ["Invalid or missing parameter: limit"] := by
  by_cases h : validate (.znum true true (some 50)) (.vnum q) = true
  · simp [violations, getUserTradesInput, pget, h]
  · simp [violations, getUserTradesInput, pget, h]

/-- An integer `limit` between 1 and 50 conforms to
`z.number().int().positive().max(50)`. -/
theorem validate_limit_nat (n : ℕ) (h1 : 1 ≤ n) (h2 : n ≤ 50) :
    validate (.znum true true (some 50)) (.vnum n) = true := by
  simp [validate]
  constructor
  · exact_mod_cast h1
  · exact_mod_cast h2

/-- A `limit` above 50 violates `z.number().int().positive().max(50)`. -/
theorem validate_limit_gt50 (q : ℚ) (h : 50 < q) :
    validate (.znum true true (some 50)) (.vnum q) = false := by
  simp [validate]
  intro h0 hden
  exact h

/-- `invoke` specialised to the `getOrders` tool (definitional unfolding). -/
theorem invoke_getOrders_eq (cfg : Config) (d : Delegate) (p : Params) :
    invoke cfg d "getOrders" p =
      (if (violations getOrdersInput p).isEmpty then
        match getOrdersTool.handler cfg d (stripParams getOrdersInput p) with
        | (.ok r, calls) =>
            if validate getOrdersTool.outputSchema r.structuredContent then
              (.ok r, calls)
            else (.error .invalidOutput, calls)
        | (.error e, calls) => (.error e, calls)
      else
        (.error (.invalidInput (String.intercalate "; "
          (violations getOrdersInput p))), [])) := rfl

/-- `invoke` specialised to the `getUserTrades` tool. -/
theorem invoke_getUserTrades_eq (cfg : Config) (d : Delegate) (p : Params) :
    invoke cfg d "getUserTrades" p =
      (if (violations getUserTradesInput p).isEmpty then
        match getUserTradesTool.handler cfg d
            (stripParams getUserTradesInput p) with
        | (.ok r, calls) =>
            if validate getUserTradesTool.outputSchema r.structuredContent then
              (.ok r, calls)
            else (.error .invalidOutput, calls)
        | (.error e, calls) => (.error e, calls)
      else
        (.error (.invalidInput (String.intercalate "; "
          (violations getUserTradesInput p))), [])) := rfl

/-! ### Claim theorems -/

/-- C6: invoking `placeOrder` with `{symbol:"btc-usdt", side:"buy", size:1,
type:"limit", price:10000}` against a delegate whose `createOrder` resolves
with the stub order payload produces a success whose text is exactly
`"Placed order 123"` and whose structured content is the stub payload,
unmodified (and the one delegated call carries exactly the input fields). -/
theorem placeOrder_concrete_scenario :
    invoke ⟨some "key", some "secret"⟩
      (fun c => match c with
        | .createOrder _ _ _ _ _ _ => .ok stubOrderValue
        | _ => .error "unexpected")
      "placeOrder" scenarioParams =
    (.ok ⟨"Placed order 123", stubOrderValue⟩,
     [.createOrder (.vstr "btc-usdt") (.vstr "buy") (.vnum 1) (.vstr "limit")
        (.vnum 10000) .vundefined]) := rfl

/-- C7: an invocation request whose tool name is not in the fixed catalog
fails with `ToolNotFound`, no delegate call happens, and the error class is
distinct from the `InvalidInput` class of schema violations. -/
theorem unknown_tool_notFound (cfg : Config) (d : Delegate) (name : String)
    (p : Params) (h : ∀ t ∈ registry, t.name ≠ name) :
    invoke cfg d name p = (.error (.toolNotFound name), []) ∧
    (InvokeError.toolNotFound name).isToolNotFound = true ∧
    (InvokeError.toolNotFound name).isInvalidInput = false := by
  have hf : findTool name = none := by
    unfold findTool
    rw [List.find?_eq_none]
    intro t ht
    simpa using h t ht
  unfold invoke
  rw [hf]
  exact ⟨rfl, rfl, rfl⟩

/-- Witness for C7 at the concrete unknown name "doesNotExist". -/
theorem unknown_tool_notFound_witness :
    invoke ⟨some "k", some "s"⟩ (fun _ => .error "stub") "doesNotExist" [] =
      (.error (.toolNotFound "doesNotExist"), []) ∧
    (InvokeError.toolNotFound "doesNotExist").isToolNotFound = true ∧
    (InvokeError.toolNotFound "doesNotExist").isInvalidInput = false :=
  unknown_tool_notFound ⟨some "k", some "s"⟩ (fun _ => .error "stub")
    "doesNotExist" [] (by intro t ht; fin_cases ht <;> decide)

/-- C8: every GET on a liveness path answers 200 with `{ok: true}`, for any
configuration (in particular with no credentials), while at the same time a
tool invocation without credentials fails with `MissingCredentials`. -/
theorem health_endpoints_ok (cfg : Config) (path : String)
    (h : path ∈ healthPaths) :
    httpGet cfg path = some (200, .vobj [("ok", .vbool true)]) ∧
    ∀ d : Delegate,
      (invoke ⟨none, none⟩ d "getUserBalance" []).1 =
        .error (.handlerError missingCredentialsMsg) ∧
      (InvokeError.handlerError missingCredentialsMsg).isMissingCredentials
        = true := by
  refine ⟨?_, fun d => ⟨rfl, rfl⟩⟩
  have hp : path = "/health" ∨ path = "/api/mcp/health" := by
    simpa [healthPaths] using h
  rcases hp with rfl | rfl <;> rfl

/-- Witness for C8 at the concrete path "/health" with empty credentials. -/
theorem health_endpoints_ok_witness :
    httpGet ⟨none, none⟩ "/health" = some (200, .vobj [("ok", .vbool true)]) ∧
    ∀ d : Delegate,
      (invoke ⟨none, none⟩ d "getUserBalance" []).1 =
        .error (.handlerError missingCredentialsMsg) ∧
      (InvokeError.handlerError missingCredentialsMsg).isMissingCredentials
        = true :=
  health_endpoints_ok ⟨none, none⟩ "/health" (by simp [healthPaths])

/-- C10: `getUserBalance` and `getBalance` are behaviorally identical: same
title, description and schemas, identical invocation results on all inputs,
and on a successful balance fetch both answer the text
"Fetched user balances." with the delegate's balances object. -/
theorem balance_tools_identical :
    (getUserBalanceTool.title = getBalanceTool.title ∧
     getUserBalanceTool.description = getBalanceTool.description ∧
     getUserBalanceTool.inputSchema = getBalanceTool.inputSchema ∧
     getUserBalanceTool.outputSchema = getBalanceTool.outputSchema) ∧
    (∀ (cfg : Config) (d : Delegate) (p : Params),
      invoke cfg d "getUserBalance" p = invoke cfg d "getBalance" p) ∧
    (∀ (cfg : Config) (d : Delegate) (b : Value), credsPresent cfg = true →
      d .getBalance = .ok b → validate balanceOutputSchema b = true →
      invoke cfg d "getUserBalance" [] =
        (.ok ⟨"Fetched user balances.", b⟩, [.getBalance])) := by
  refine ⟨⟨rfl, rfl, rfl, rfl⟩, fun cfg d p => rfl, ?_⟩
  intro cfg d b hc hd hb
  have h2 : simpleHandler (fun _ => .getBalance)
      (fun _ => "Fetched user balances.") cfg d [] =
      (.ok ⟨"Fetched user balances.", b⟩, [.getBalance]) := by
    simp [simpleHandler, makeClient_of_creds cfg hc, hd, formatResponse]
  have h1 : invoke cfg d "getUserBalance" [] =
      (match simpleHandler (fun _ => .getBalance)
          (fun _ => "Fetched user balances.") cfg d [] with
       | (.ok r, calls) =>
           if validate balanceOutputSchema r.structuredContent then
             (.ok r, calls)
           else (.error .invalidOutput, calls)
       | (.error e, calls) => (.error e, calls)) := rfl
  rw [h1, h2]
  simp [hb]

/-- Witness for C10's quantified parts at concrete inputs. -/
theorem balance_tools_identical_witness :
    invoke ⟨some "k", some "s"⟩ (fun _ => .error "stub") "getUserBalance" [] =
      invoke ⟨some "k", some "s"⟩ (fun _ => .error "stub") "getBalance" [] ∧
    invoke ⟨some "k", some "s"⟩
        (fun _ => .ok (.vobj [("btc_balance", .vnum 1)])) "getUserBalance" [] =
      (.ok ⟨"Fetched user balances.", .vobj [("btc_balance", .vnum 1)]⟩,
       [.getBalance]) :=
  ⟨balance_tools_identical.2.1 ⟨some "k", some "s"⟩ (fun _ => .error "stub") [],
   balance_tools_identical.2.2 ⟨some "k", some "s"⟩
     (fun _ => .ok (.vobj [("btc_balance", .vnum 1)]))
     (.vobj [("btc_balance", .vnum 1)]) rfl rfl rfl⟩


/-- C1: every `placeOrder` invocation with `type = "limit"` and no `price`
parameter fails with an `InvalidInput`-class error and never reaches the
delegate; when the parameters pass the input schema, the error is exactly
the cross-field message "price is required for limit orders". -/
theorem placeOrder_limit_noPrice_rejected (cfg : Config) (d : Delegate)
    (p : Params) (htype : pget p "type" = .vstr "limit")
    (hprice : pget p "price" = .vundefined) :
    (∃ e, (invoke cfg d "placeOrder" p).1 = .error e ∧
       e.isInvalidInput = true) ∧
    (invoke cfg d "placeOrder" p).2 = [] ∧
    (inputValid placeOrderInput p = true →
      (invoke cfg d "placeOrder" p).1 =
        .error (.handlerError priceRequiredMsg)) := by
  have hts : pget (stripParams placeOrderInput p) "type" = .vstr "limit" := by
    rw [pget_stripParams placeOrderInput "type" p rfl]; exact htype
  have hps : pget (stripParams placeOrderInput p) "price" = .vundefined := by
    rw [pget_stripParams placeOrderInput "price" p rfl]; exact hprice
  have hh := placeOrderHandler_limit_noPrice cfg d _ hts hps
  rw [invoke_placeOrder_eq cfg d p]
  by_cases hv : (violations placeOrderInput p).isEmpty
  · rw [if_pos hv, hh]
    exact ⟨⟨.handlerError priceRequiredMsg, rfl, rfl⟩, rfl, fun _ => rfl⟩
  · rw [if_neg hv]
    exact ⟨⟨.invalidInput _, rfl, rfl⟩, rfl,
      fun hval => absurd hval hv⟩

/-- Witness for C1: a schema-valid limit order without price. -/
theorem placeOrder_limit_noPrice_rejected_witness :
    (∃ e, (invoke ⟨some "k", some "s"⟩ (fun _ => .error "stub") "placeOrder"
        [("symbol", .vstr "btc-usdt"), ("side", .vstr "buy"),
         ("size", .vnum 1), ("type", .vstr "limit")]).1 = .error e ∧
       e.isInvalidInput = true) ∧
    (invoke ⟨some "k", some "s"⟩ (fun _ => .error "stub") "placeOrder"
        [("symbol", .vstr "btc-usdt"), ("side", .vstr "buy"),
         ("size", .vnum 1), ("type", .vstr "limit")]).2 = [] ∧
    (inputValid placeOrderInput
        [("symbol", .vstr "btc-usdt"), ("side", .vstr "buy"),
         ("size", .vnum 1), ("type", .vstr "limit")] = true →
      (invoke ⟨some "k", some "s"⟩ (fun _ => .error "stub") "placeOrder"
        [("symbol", .vstr "btc-usdt"), ("side", .vstr "buy"),
         ("size", .vnum 1), ("type", .vstr "limit")]).1 =
        .error (.handlerError priceRequiredMsg)) :=
  placeOrder_limit_noPrice_rejected ⟨some "k", some "s"⟩
    (fun _ => .error "stub")
    [("symbol", .vstr "btc-usdt"), ("side", .vstr "buy"),
     ("size", .vnum 1), ("type", .vstr "limit")] rfl rfl

/-- C9: the cross-field limit-price check precedes the credential check: a
schema-valid limit order without price fails with the price error — which is
`InvalidInput`-class and not `MissingCredentials` — even when the
configuration has no credentials, and no delegate call occurs. -/
theorem placeOrder_priceCheck_precedes_credentials (cfg : Config)
    (d : Delegate) (p : Params) (_hnc : credsPresent cfg = false)
    (hv : inputValid placeOrderInput p = true)
    (htype : pget p "type" = .vstr "limit")
    (hprice : pget p "price" = .vundefined) :
    invoke cfg d "placeOrder" p =
      (.error (.handlerError priceRequiredMsg), []) ∧
    (InvokeError.handlerError priceRequiredMsg).isInvalidInput = true ∧
    (InvokeError.handlerError priceRequiredMsg).isMissingCredentials
      = false := by
  have hts : pget (stripParams placeOrderInput p) "type" = .vstr "limit" := by
    rw [pget_stripParams placeOrderInput "type" p rfl]; exact htype
  have hps : pget (stripParams placeOrderInput p) "price" = .vundefined := by
    rw [pget_stripParams placeOrderInput "price" p rfl]; exact hprice
  have hh := placeOrderHandler_limit_noPrice cfg d _ hts hps
  rw [invoke_placeOrder_eq cfg d p,
    if_pos (show (violations placeOrderInput p).isEmpty = true from hv), hh]
  exact ⟨rfl, rfl, rfl⟩

/-- Witness for C9: the same limit order without price, with credentials
absent from the configuration. -/
theorem placeOrder_priceCheck_precedes_credentials_witness :
    invoke ⟨none, none⟩ (fun _ => .error "stub") "placeOrder"
        [("symbol", .vstr "btc-usdt"), ("side", .vstr "buy"),
         ("size", .vnum 1), ("type", .vstr "limit")] =
      (.error (.handlerError priceRequiredMsg), []) ∧
    (InvokeError.handlerError priceRequiredMsg).isInvalidInput = true ∧
    (InvokeError.handlerError priceRequiredMsg).isMissingCredentials
      = false :=
  placeOrder_priceCheck_precedes_credentials ⟨none, none⟩
    (fun _ => .error "stub")
    [("symbol", .vstr "btc-usdt"), ("side", .vstr "buy"),
     ("size", .vnum 1), ("type", .vstr "limit")] rfl rfl rfl rfl


/-- C3: for every tool in the catalog, a parameter mapping that violates the
declared input schema fails with `InvalidInput` carrying the violation
description, and neither the handler nor the delegate ever runs. -/
theorem schema_violation_rejected (cfg : Config) (d : Delegate)
    (name : String) (t : ToolDef) (p : Params)
    (hfind : findTool name = some t)
    (hbad : inputValid t.inputSchema p = false) :
    invoke cfg d name p =
      (.error (.invalidInput (String.intercalate "; "
        (violations t.inputSchema p))), []) ∧
    violations t.inputSchema p ≠ [] ∧
    (InvokeError.invalidInput (String.intercalate "; "
      (violations t.inputSchema p))).isInvalidInput = true := by
  have hbad' : (violations t.inputSchema p).isEmpty = false := hbad
  refine ⟨?_, ?_, rfl⟩
  · unfold invoke
    rw [hfind]
    simp [hbad']
  · intro hnil
    rw [hnil] at hbad'
    simp at hbad'

/-- Witness for C3: `placeOrder` with an empty parameter mapping. -/
theorem schema_violation_rejected_witness :
    invoke ⟨some "k", some "s"⟩ (fun _ => .error "stub") "placeOrder" [] =
      (.error (.invalidInput (String.intercalate "; "
        (violations placeOrderTool.inputSchema []))), []) ∧
    violations placeOrderTool.inputSchema [] ≠ [] ∧
    (InvokeError.invalidInput (String.intercalate "; "
      (violations placeOrderTool.inputSchema []))).isInvalidInput = true :=
  schema_violation_rejected ⟨some "k", some "s"⟩ (fun _ => .error "stub")
    "placeOrder" placeOrderTool [] rfl rfl

/-- C4: a schema-valid `placeOrder` invocation with `type = "market"` and no
`price`, with credentials present and a delegate that resolves with a
schema-conforming order, succeeds; the single delegated `createOrder` call
carries the sentinel price `0` in place of a price. -/
theorem placeOrder_market_noPrice_succeeds (cfg : Config) (d : Delegate)
    (p : Params) (v : Value) (hc : credsPresent cfg = true)
    (hv : inputValid placeOrderInput p = true)
    (htype : pget p "type" = .vstr "market")
    (_hprice : pget p "price" = .vundefined)
    (hd : ∀ c, d c = .ok v)
    (hout : validate orderOutputSchema v = true) :
    ∃ opts, invoke cfg d "placeOrder" p =
      (.ok ⟨"Placed order " ++ jsDisplay (v.objGet "id"), v⟩,
       [.createOrder (pget p "symbol") (pget p "side") (pget p "size")
          (.vstr "market") (.vnum 0) opts]) := by
  refine ⟨placeOrderOptsArg (stripParams placeOrderInput p), ?_⟩
  have hts : pget (stripParams placeOrderInput p) "type" = .vstr "market" := by
    rw [pget_stripParams placeOrderInput "type" p rfl]; exact htype
  have hsym : pget (stripParams placeOrderInput p) "symbol" = pget p "symbol" :=
    pget_stripParams placeOrderInput "symbol" p rfl
  have hside : pget (stripParams placeOrderInput p) "side" = pget p "side" :=
    pget_stripParams placeOrderInput "side" p rfl
  have hsize : pget (stripParams placeOrderInput p) "size" = pget p "size" :=
    pget_stripParams placeOrderInput "size" p rfl
  have hh : placeOrderHandler cfg d (stripParams placeOrderInput p) =
      (.ok ⟨"Placed order " ++ jsDisplay (v.objGet "id"), v⟩,
       [.createOrder (pget p "symbol") (pget p "side") (pget p "size")
          (.vstr "market") (.vnum 0)
          (placeOrderOptsArg (stripParams placeOrderInput p))]) := by
    unfold placeOrderHandler
    rw [hts, hsym, hside, hsize]
    simp [strEq, jsTruthy, makeClient_of_creds cfg hc, hd, formatResponse]
  rw [invoke_placeOrder_eq cfg d p,
    if_pos (show (violations placeOrderInput p).isEmpty = true from hv), hh]
  simp [hout]

/-- Witness for C4: a concrete market order without price. -/
theorem placeOrder_market_noPrice_succeeds_witness :
    ∃ opts, invoke ⟨some "k", some "s"⟩ (fun _ => .ok stubOrderValue)
      "placeOrder"
      [("symbol", .vstr "btc-usdt"), ("side", .vstr "buy"),
       ("size", .vnum 1), ("type", .vstr "market")] =
      (.ok ⟨"Placed order 123", stubOrderValue⟩,
       [.createOrder (.vstr "btc-usdt") (.vstr "buy") (.vnum 1)
          (.vstr "market") (.vnum 0) opts]) :=
  placeOrder_market_noPrice_succeeds ⟨some "k", some "s"⟩
    (fun _ => .ok stubOrderValue)
    [("symbol", .vstr "btc-usdt"), ("side", .vstr "buy"),
     ("size", .vnum 1), ("type", .vstr "market")] stubOrderValue
    rfl rfl rfl rfl (fun _ => rfl) rfl

/-- C2 counterexample: with credentials absent, a schema-valid limit order
without price fails with the cross-field price error — not with
`MissingCredentials` as the claim requires of every invocation. -/
theorem noCreds_placeOrder_counterexample :
    (invoke ⟨none, none⟩ (fun _ => .error "stub") "placeOrder"
      [("symbol", .vstr "btc-usdt"), ("side", .vstr "buy"),
       ("size", .vnum 1), ("type", .vstr "limit")]).1 =
      .error (.handlerError priceRequiredMsg) ∧
    (InvokeError.handlerError priceRequiredMsg).isMissingCredentials
      = false := ⟨rfl, rfl⟩

/-- C2 (amended): with the API key or secret absent, no invocation ever
performs a delegated call, and each one fails with `MissingCredentials`
unless dispatch or validation already failed (`ToolNotFound` on an unknown
name, schema `InvalidInput`, or `placeOrder`'s cross-field `InvalidInput`
price error); tool listing and the liveness endpoints still succeed. -/
theorem noCreds_no_delegate_call (cfg : Config) (d : Delegate)
    (name : String) (p : Params) (hc : credsPresent cfg = false) :
    (∃ e, (invoke cfg d name p).1 = .error e ∧
       (e.isMissingCredentials = true ∨ e.isInvalidInput = true ∨
        e.isToolNotFound = true)) ∧
    (invoke cfg d name p).2 = [] ∧
    (∀ path ∈ healthPaths,
      httpGet cfg path = some (200, .vobj [("ok", .vbool true)])) ∧
    listTools.length = 19 := by
  have hmain : ∃ e, invoke cfg d name p = (.error e, []) ∧
      (e.isMissingCredentials = true ∨ e.isInvalidInput = true ∨
       e.isToolNotFound = true) := by
    cases hfind : findTool name with
    | none =>
        refine ⟨.toolNotFound name, ?_, .inr (.inr rfl)⟩
        unfold invoke; rw [hfind]
    | some t =>
        have ht : t ∈ registry := List.mem_of_find?_eq_some hfind
        by_cases hv : (violations t.inputSchema p).isEmpty
        · rcases handler_noCreds t ht cfg d (stripParams t.inputSchema p) hc
            with hh | hh
          · refine ⟨.handlerError missingCredentialsMsg, ?_, .inl rfl⟩
            unfold invoke; rw [hfind]; simp [hv, hh]
          · refine ⟨.handlerError priceRequiredMsg, ?_, .inr (.inl rfl)⟩
            unfold invoke; rw [hfind]; simp [hv, hh]
        · refine ⟨.invalidInput (String.intercalate "; "
            (violations t.inputSchema p)), ?_, .inr (.inl rfl)⟩
          unfold invoke; rw [hfind]; simp [hv]
  obtain ⟨e, he, hclass⟩ := hmain
  refine ⟨⟨e, by rw [he], hclass⟩, by rw [he], ?_, rfl⟩
  intro path hp
  have hp2 : path = "/health" ∨ path = "/api/mcp/health" := by
    simpa [healthPaths] using hp
  rcases hp2 with rfl | rfl <;> rfl

/-- Witness for C2 (amended) at a concrete credential-less invocation. -/
theorem noCreds_no_delegate_call_witness :
    (∃ e, (invoke ⟨none, none⟩ (fun _ => .error "stub") "getTicker"
        [("symbol", .vstr "btc-usdt")]).1 = .error e ∧
       (e.isMissingCredentials = true ∨ e.isInvalidInput = true ∨
        e.isToolNotFound = true)) ∧
    (invoke ⟨none, none⟩ (fun _ => .error "stub") "getTicker"
        [("symbol", .vstr "btc-usdt")]).2 = [] ∧
    (∀ path ∈ healthPaths,
      httpGet ⟨none, none⟩ path = some (200, .vobj [("ok", .vbool true)])) ∧
    listTools.length = 19 :=
  noCreds_no_delegate_call ⟨none, none⟩ (fun _ => .error "stub") "getTicker"
    [("symbol", .vstr "btc-usdt")] rfl


/-- C5: for `getOrders` and `getUserTrades`, every integer `limit` with
1 ≤ limit ≤ 50 passes input validation, and every `limit` above 50 is
rejected at schema level with `InvalidInput` before the handler runs (no
delegate call). -/
theorem limit_bound_fifty :
    (∀ n : ℕ, 1 ≤ n → n ≤ 50 →
      inputValid getOrdersInput [("limit", .vnum n)] = true ∧
      inputValid getUserTradesInput [("limit", .vnum n)] = true) ∧
    (∀ q : ℚ, 50 < q → ∀ (cfg : Config) (d : Delegate),
      invoke cfg d "getOrders" [("limit", .vnum q)] =
        (.error (.invalidInput "Invalid or missing parameter: limit"), []) ∧
      invoke cfg d "getUserTrades" [("limit", .vnum q)] =
        (.error (.invalidInput "Invalid or missing parameter: limit"), [])) := by
  constructor
  · intro n h1 h2
    have hval := validate_limit_nat n h1 h2
    constructor
    · unfold inputValid
      rw [violations_getOrders_limit, if_pos hval]
      rfl
    · unfold inputValid
      rw [violations_getUserTrades_limit, if_pos hval]
      rfl
  · intro q hq cfg d
    have hval := validate_limit_gt50 q hq
    constructor
    · rw [invoke_getOrders_eq cfg d [("limit", .vnum q)],
        violations_getOrders_limit]
      simp only [hval, if_false, List.isEmpty_cons, if_neg]
      simp [hval]
      rfl
    · rw [invoke_getUserTrades_eq cfg d [("limit", .vnum q)],
        violations_getUserTrades_limit]
      simp only [hval, if_false, List.isEmpty_cons, if_neg]
      simp [hval]
      rfl

/-- Witness for C5 at the boundary values 50 and 51. -/
theorem limit_bound_fifty_witness :
    (inputValid getOrdersInput [("limit", .vnum ((50 : ℕ) : ℚ))] = true ∧
     inputValid getUserTradesInput [("limit", .vnum ((50 : ℕ) : ℚ))] = true) ∧
    (invoke ⟨some "k", some "s"⟩ (fun _ => .error "stub") "getOrders"
        [("limit", .vnum 51)] =
      (.error (.invalidInput "Invalid or missing parameter: limit"), []) ∧
     invoke ⟨some "k", some "s"⟩ (fun _ => .error "stub") "getUserTrades"
        [("limit", .vnum 51)] =
      (.error (.invalidInput "Invalid or missing parameter: limit"), [])) :=
  ⟨limit_bound_fifty.1 50 (by norm_num) (by norm_num),
   limit_bound_fifty.2 51 (by norm_num) ⟨some "k", some "s"⟩
     (fun _ => .error "stub")⟩

end HollaexMcp
